import Mathlib

/-!
Verification of the KPI threshold-notification engine and the saved-graph
storage of the mobility-intelligence-hub repository.

The notification engine itself is a FastAPI backend component that the
repository ships only callers for (the React `Notifications` page and the
management scripts); its data model and `evaluate_and_notify` operation are
modelled here from the specification.  The saved-graph storage is embedded
directly from `frontend/src/utils/graphStorage.js`.

Floating-point KPI values are modelled as rationals (`ℚ`); non-finite inputs
(NaN, ±∞) are represented explicitly by the `FloatValue` type so that their
rejection can be stated.  Timestamps are rationals measured in hours, so the
cooldown arithmetic `now - last_notified < cooldown_hours` is literal.
-/

namespace MobilityHub

/-- Modelled from the spec: the five enumerated threshold operators of a
`NotificationPreference` (spec §3). -/
inductive ThresholdOperator
  | less_than
  | less_than_or_equal
  | greater_than
  | greater_than_or_equal
  | equal
deriving DecidableEq, Repr

/-- Modelled from the spec: the threshold predicate `compare(value, op,
threshold)` of `evaluate_and_notify` step 3 (spec §4.1); `equal` is exact
equality with no epsilon tolerance. -/
def compare (value : ℚ) (op : ThresholdOperator) (threshold : ℚ) : Bool :=
  match op with
  | .less_than => decide (value < threshold)
  | .less_than_or_equal => decide (value ≤ threshold)
  | .greater_than => decide (value > threshold)
  | .greater_than_or_equal => decide (value ≥ threshold)
  | .equal => decide (value = threshold)

/-- Modelled from the spec: a KPI update value as received by
`evaluate_and_notify`; finite values are rationals and the non-finite
floating-point inputs (NaN, ±∞) are explicit constructors so that spec §4.1's
rejection of non-finite values can be stated. -/
inductive FloatValue
  | finite (q : ℚ)
  | nan
  | pos_inf
  | neg_inf
deriving DecidableEq

/-- Modelled from the spec: `NotificationPreference` (spec §3); an empty
`date_range` string stands for the absent optional filter. -/
structure NotificationPreference where
  id : Nat
  owner : String
  kpi_id : String
  threshold_value : ℚ
  threshold_operator : ThresholdOperator
  email : String
  enabled : Bool
  cooldown_hours : Nat
  date_range : String
  alert_frequency : String
  last_notified : Option ℚ
deriving DecidableEq, Repr

/-- Modelled from the spec: `KpiSnapshot` (spec §3). -/
structure KpiSnapshot where
  kpi_id : String
  value : ℚ
  date_range : String
  updated_at : ℚ
deriving DecidableEq, Repr

/-- Modelled from the spec: `NotificationHistoryRecord` (spec §3). -/
structure NotificationHistoryRecord where
  id : Nat
  kpi_id : String
  kpi_name : String
  actual_value : ℚ
  threshold_value : ℚ
  threshold_operator : ThresholdOperator
  email : String
  sent_at : ℚ
  success : Bool
deriving DecidableEq, Repr

/-- Modelled from the spec: the persisted state the engine touches — the
PreferenceStore, the append-only history log (with a fresh-id counter), and
the KpiStore (spec §3, §6). -/
structure EngineState where
  preferences : List NotificationPreference
  history : List NotificationHistoryRecord
  kpis : List KpiSnapshot
  next_history_id : Nat
deriving DecidableEq

/-- Modelled from the spec: the Mailer collaborator (spec §2) — sends a
formatted email given recipient, subject, and body, returning whether
delivery succeeded. -/
def Mailer : Type := String → String → String → Bool

/-- Modelled from the spec: call-level error taxonomy (spec §7). -/
inductive EngineError
  | InvalidValue
  | StoreUnavailable
  | ValidationError
deriving DecidableEq, Repr

/-- Modelled from the spec: one entry of the per-preference outcome list
returned by the trigger interface (spec §6). -/
structure PreferenceOutcome where
  preference_id : Nat
  dispatched : Bool
  reason : String
deriving DecidableEq, Repr

/-- Modelled from the spec: processing step 2 of `evaluate_and_notify` (spec
§4.1) — the preference's `date_range` filter blocks an update exactly when it
is non-empty and differs (exact string match) from the update's
`date_range`. -/
def date_range_blocks (p : NotificationPreference) (date_range : String) : Bool :=
  decide (p.date_range ≠ "") && decide (p.date_range ≠ date_range)

/-- Modelled from the spec: processing step 4 of `evaluate_and_notify` (spec
§4.1) — the preference is in cooldown when `last_notified` is set and
`now - last_notified < cooldown_hours` (times in hours). -/
def in_cooldown (now : ℚ) (p : NotificationPreference) : Bool :=
  match p.last_notified with
  | some ln => decide (now - ln < (p.cooldown_hours : ℚ))
  | none => false

/-- Modelled from the spec: the email subject of a dispatched alert references
the KPI display name (spec §4.1 step 5). -/
def mail_subject (kpi_display_name : String) : String :=
  "KPI Alert: " ++ kpi_display_name

/-- Modelled from the spec: the email body contains the observed value, the
threshold value and operator, and the update's date range (spec §4.1
step 5). -/
def mail_body (value threshold : ℚ) (op : ThresholdOperator) (date_range : String) : String :=
  "value " ++ toString value.num ++ "/" ++ toString value.den
    ++ " threshold " ++ toString threshold.num ++ "/" ++ toString threshold.den
    ++ " op " ++ (match op with
      | .less_than => "less_than"
      | .less_than_or_equal => "less_than_or_equal"
      | .greater_than => "greater_than"
      | .greater_than_or_equal => "greater_than_or_equal"
      | .equal => "equal")
    ++ " period " ++ date_range

/-- Modelled from the spec: processing steps 1-7 of `evaluate_and_notify` for
one matching preference (spec §4.1): skip when disabled, when the date-range
filter blocks, when the threshold predicate is false, or when in cooldown;
otherwise attempt delivery via the Mailer — on success set
`last_notified := now` and record a `success = true` history entry, on failure
leave the preference unchanged and record a `success = false` entry.  History
record ids are assigned later by the caller (placeholder 0 here). -/
def step_preference (mailer : Mailer) (now : ℚ) (kpi_id : String) (v : ℚ)
    (date_range : String) (name : String) (p : NotificationPreference) :
    NotificationPreference × Option NotificationHistoryRecord × PreferenceOutcome :=
  if p.enabled = false then
    (p, none, ⟨p.id, false, "disabled"⟩)
  else if date_range_blocks p date_range then
    (p, none, ⟨p.id, false, "date mismatch"⟩)
  else if compare v p.threshold_operator p.threshold_value = false then
    (p, none, ⟨p.id, false, "threshold not met"⟩)
  else if in_cooldown now p then
    (p, none, ⟨p.id, false, "cooldown"⟩)
  else if mailer p.email (mail_subject name) (mail_body v p.threshold_value p.threshold_operator date_range) then
    ({ p with last_notified := some now },
     some ⟨0, kpi_id, name, v, p.threshold_value, p.threshold_operator, p.email, now, true⟩,
     ⟨p.id, true, "dispatched"⟩)
  else
    (p, some ⟨0, kpi_id, name, v, p.threshold_value, p.threshold_operator, p.email, now, false⟩,
     ⟨p.id, false, "delivery failed"⟩)

/-- Modelled from the spec: the engine walks the PreferenceStore, evaluates
every preference registered for the updated KPI independently (spec §4.1),
leaves preferences for other KPIs untouched, collects the fresh history
records (numbering them from `n`), and continues past individual failures. -/
def process_preferences (mailer : Mailer) (now : ℚ) (kpi_id : String) (v : ℚ)
    (date_range : String) (name : String) :
    List NotificationPreference → Nat →
      List NotificationPreference × List NotificationHistoryRecord × List PreferenceOutcome
  | [], _ => ([], [], [])
  | p :: ps, n =>
    if p.kpi_id = kpi_id then
      match step_preference mailer now kpi_id v date_range name p with
      | (p', some r, out) =>
        let rest := process_preferences mailer now kpi_id v date_range name ps (n + 1)
        (p' :: rest.1, { r with id := n } :: rest.2.1, out :: rest.2.2)
      | (p', none, out) =>
        let rest := process_preferences mailer now kpi_id v date_range name ps n
        (p' :: rest.1, rest.2.1, out :: rest.2.2)
    else
      let rest := process_preferences mailer now kpi_id v date_range name ps n
      (p :: rest.1, rest.2.1, rest.2.2)

/-- Modelled from the spec: the public operation
`evaluate_and_notify(kpi_id, value, date_range, kpi_display_name)` (spec
§4.1).  The Mailer, the current time, and the availability of the
PreferenceStore are explicit parameters; the display name falls back to
`kpi_id` when absent.  A non-finite value fails with `InvalidValue` and a
store read failure with `StoreUnavailable`; an error result carries no state,
so nothing is committed.  On success the history grows by the fresh records
and the per-preference outcome list is returned. -/
def evaluate_and_notify (mailer : Mailer) (now : ℚ) (store_ok : Bool)
    (kpi_id : String) (value : FloatValue) (date_range : String)
    (kpi_display_name : Option String) (st : EngineState) :
    Except EngineError (EngineState × List PreferenceOutcome) :=
  match value with
  | .finite v =>
    if store_ok then
      let name := kpi_display_name.getD kpi_id
      let res := process_preferences mailer now kpi_id v date_range name
        st.preferences st.next_history_id
      .ok ({ st with
              preferences := res.1,
              history := st.history ++ res.2.1,
              next_history_id := st.next_history_id + res.2.1.length },
           res.2.2)
    else
      .error .StoreUnavailable
  | _ => .error .InvalidValue

/-- Modelled from the spec: the raw input of `create_preference` as received
from the caller, before validation (spec §4.1, §7) — the operator arrives as
a string, the cooldown as a possibly non-positive integer, and an empty email
string stands for a missing email. -/
structure PreferenceInput where
  owner : String
  kpi_id : String
  threshold_value : ℚ
  threshold_operator : String
  email : String
  enabled : Bool
  cooldown_hours : Int
  date_range : String
  alert_frequency : String
deriving DecidableEq, Repr

/-- Modelled from the spec: recognising the five enumerated operator names
(spec §3). -/
def parse_operator : String → Option ThresholdOperator
  | "less_than" => some .less_than
  | "less_than_or_equal" => some .less_than_or_equal
  | "greater_than" => some .greater_than
  | "greater_than_or_equal" => some .greater_than_or_equal
  | "equal" => some .equal
  | _ => none

/-- Modelled from the spec: `create_preference` validates that the operator is
one of the five enumerated values, that `cooldown_hours ≥ 1`, and that the
email is present, failing with `ValidationError` before any persistence
otherwise; a valid input is appended to the PreferenceStore with
`last_notified = null` (spec §4.1, §7). -/
def create_preference (next_id : Nat) (inp : PreferenceInput) (st : EngineState) :
    Except EngineError (EngineState × NotificationPreference) :=
  match parse_operator inp.threshold_operator with
  | none => .error .ValidationError
  | some op =>
    if inp.cooldown_hours < 1 then
      .error .ValidationError
    else if inp.email = "" then
      .error .ValidationError
    else
      let p : NotificationPreference :=
        ⟨next_id, inp.owner, inp.kpi_id, inp.threshold_value, op, inp.email,
         inp.enabled, inp.cooldown_hours.toNat, inp.date_range,
         inp.alert_frequency, none⟩
      .ok ({ st with preferences := st.preferences ++ [p] }, p)

/-- Modelled from the spec: `get_history(limit)` returns the most recent
history records, most-recent-first (spec §6); the history log is append-only
and chronological, so most-recent-first is the reverse of the stored
order. -/
def get_history (limit : Nat) (st : EngineState) : List NotificationHistoryRecord :=
  st.history.reverse.take limit

/-- A saved graph object as stored by `frontend/src/utils/graphStorage.js`:
id, prompt, Vega-Lite spec (kept opaque as a string), dataset filename and
the two creation timestamps. -/
structure SavedGraph where
  id : String
  prompt : String
  vlSpec : String
  dataset : String
  timestamp : String
  createdAt : String
deriving DecidableEq, Repr

/-- `getSavedGraphs` from `graphStorage.js`: returns the stored array (the
localStorage value under `saved_graphs`, modelled as the list itself). -/
def getSavedGraphs (store : List SavedGraph) : List SavedGraph :=
  store

/-- `saveGraph` from `graphStorage.js`: builds a new graph object from the
prompt, spec and dataset, pushes it at the end of the stored array, and
returns it.  The generated id (`Date.now()` plus a random suffix) and the two
clock reads are nondeterministic in the source and are taken as explicit
parameters. -/
def saveGraph (newId timestamp createdAt : String)
    (prompt vlSpec dataset : String) (store : List SavedGraph) :
    SavedGraph × List SavedGraph :=
  let newGraph : SavedGraph := ⟨newId, prompt, vlSpec, dataset, timestamp, createdAt⟩
  (newGraph, getSavedGraphs store ++ [newGraph])

/-- `deleteGraph` from `graphStorage.js`: keeps exactly the graphs whose id
differs from the given one. -/
def deleteGraph (id : String) (store : List SavedGraph) : List SavedGraph :=
  (getSavedGraphs store).filter (fun g => decide (g.id ≠ id))

/-- `getGraphById` from `graphStorage.js`: the first stored graph with the
given id, or `none` (JavaScript `null`) when there is none. -/
def getGraphById (id : String) (store : List SavedGraph) : Option SavedGraph :=
  (getSavedGraphs store).find? (fun g => decide (g.id = id))

/-- A Mailer that accepts every message, used to instantiate theorems on
concrete inputs. -/
def sample_mailer_ok : Mailer := fun _ _ _ => true

/-- A Mailer that rejects mail addressed to `a@b.com` and accepts the rest,
used to exercise partial-failure scenarios on concrete inputs. -/
def sample_mailer_pick : Mailer := fun recipient _ _ => decide (recipient ≠ "a@b.com")

/-- The preference of the spec's end-to-end scenario: alert when
`poverty_rate` drops below 15, cooldown 24 hours, never notified yet. -/
def sample_pref : NotificationPreference :=
  ⟨1, "alice", "poverty_rate", 15, .less_than, "a@b.com", true, 24, "", "daily", none⟩

/-- `sample_pref` after a dispatch at time 0. -/
def sample_pref_notified : NotificationPreference :=
  { sample_pref with last_notified := some 0 }

/-- A second, enabled preference on the same KPI with a different recipient. -/
def sample_pref2 : NotificationPreference :=
  ⟨2, "bob", "poverty_rate", 20, .less_than, "b@c.com", true, 24, "", "daily", none⟩

/-- `sample_pref` disabled, with the threshold of the spec's disabled-preference
test (`less_than 20`). -/
def sample_pref_disabled : NotificationPreference :=
  { sample_pref with enabled := false, threshold_value := 20 }

/-- An engine state holding exactly `sample_pref`. -/
def sample_st : EngineState := ⟨[sample_pref], [], [], 0⟩

/-- An engine state holding exactly `sample_pref_notified`. -/
def sample_st_notified : EngineState := ⟨[sample_pref_notified], [], [], 0⟩

/-- An engine state holding exactly `sample_pref_disabled`. -/
def sample_st_disabled : EngineState := ⟨[sample_pref_disabled], [], [], 0⟩

/-- An engine state holding `sample_pref` and `sample_pref2`. -/
def sample_st_two : EngineState := ⟨[sample_pref, sample_pref2], [], [], 0⟩

/-- Two history records sent at hours 1 and 2, in chronological order. -/
def sample_st_history : EngineState :=
  ⟨[], [⟨0, "poverty_rate", "Poverty Rate", 14, 15, .less_than, "a@b.com", 1, true⟩,
        ⟨1, "poverty_rate", "Poverty Rate", 13, 15, .less_than, "a@b.com", 2, true⟩], [], 2⟩

/-- A one-element saved-graph store whose graph id differs from `g2`. -/
def sample_graph_store : List SavedGraph :=
  [⟨"graph_1", "old prompt", "old spec", "movies-w-year.csv", "t0", "c0"⟩]

/-- A malformed preference input: unknown operator name. -/
def sample_input_bad : PreferenceInput :=
  ⟨"alice", "poverty_rate", 15, "between", "a@b.com", true, 24, "", "daily"⟩

/-- A well-formed preference input matching the spec's end-to-end scenario. -/
def sample_input_good : PreferenceInput :=
  ⟨"alice", "poverty_rate", 15, "less_than", "a@b.com", true, 24, "", "daily"⟩

theorem step_preference_disabled (m : Mailer) (now : ℚ) (kpi_id : String) (v : ℚ)
    (dr name : String) (p : NotificationPreference) (hd : p.enabled = false) :
    step_preference m now kpi_id v dr name p = (p, none, ⟨p.id, false, "disabled"⟩) := by
  simp [step_preference, hd]

theorem step_preference_date_mismatch (m : Mailer) (now : ℚ) (kpi_id : String) (v : ℚ)
    (dr name : String) (p : NotificationPreference) (hen : p.enabled = true)
    (hb : date_range_blocks p dr = true) :
    step_preference m now kpi_id v dr name p = (p, none, ⟨p.id, false, "date mismatch"⟩) := by
  simp [step_preference, hen, hb]

theorem step_preference_threshold_not_met (m : Mailer) (now : ℚ) (kpi_id : String) (v : ℚ)
    (dr name : String) (p : NotificationPreference) (hen : p.enabled = true)
    (hb : date_range_blocks p dr = false)
    (hc : compare v p.threshold_operator p.threshold_value = false) :
    step_preference m now kpi_id v dr name p = (p, none, ⟨p.id, false, "threshold not met"⟩) := by
  simp [step_preference, hen, hb, hc]

theorem step_preference_cooldown (m : Mailer) (now : ℚ) (kpi_id : String) (v : ℚ)
    (dr name : String) (p : NotificationPreference) (hen : p.enabled = true)
    (hb : date_range_blocks p dr = false)
    (hc : compare v p.threshold_operator p.threshold_value = true)
    (hcd : in_cooldown now p = true) :
    step_preference m now kpi_id v dr name p = (p, none, ⟨p.id, false, "cooldown"⟩) := by
  simp [step_preference, hen, hb, hc, hcd]

theorem step_preference_dispatch (m : Mailer) (now : ℚ) (kpi_id : String) (v : ℚ)
    (dr name : String) (p : NotificationPreference) (hen : p.enabled = true)
    (hb : date_range_blocks p dr = false)
    (hc : compare v p.threshold_operator p.threshold_value = true)
    (hcd : in_cooldown now p = false)
    (hm : m p.email (mail_subject name)
            (mail_body v p.threshold_value p.threshold_operator dr) = true) :
    step_preference m now kpi_id v dr name p =
      ({ p with last_notified := some now },
       some ⟨0, kpi_id, name, v, p.threshold_value, p.threshold_operator, p.email, now, true⟩,
       ⟨p.id, true, "dispatched"⟩) := by
  simp [step_preference, hen, hb, hc, hcd, hm]

theorem step_preference_delivery_failed (m : Mailer) (now : ℚ) (kpi_id : String) (v : ℚ)
    (dr name : String) (p : NotificationPreference) (hen : p.enabled = true)
    (hb : date_range_blocks p dr = false)
    (hc : compare v p.threshold_operator p.threshold_value = true)
    (hcd : in_cooldown now p = false)
    (hm : m p.email (mail_subject name)
            (mail_body v p.threshold_value p.threshold_operator dr) = false) :
    step_preference m now kpi_id v dr name p =
      (p,
       some ⟨0, kpi_id, name, v, p.threshold_value, p.threshold_operator, p.email, now, false⟩,
       ⟨p.id, false, "delivery failed"⟩) := by
  simp [step_preference, hen, hb, hc, hcd, hm]

theorem step_preference_fst_cases (m : Mailer) (now : ℚ) (kpi_id : String) (v : ℚ)
    (dr name : String) (p : NotificationPreference) :
    (step_preference m now kpi_id v dr name p).1 = p
    ∨ ((step_preference m now kpi_id v dr name p).1 = { p with last_notified := some now }
       ∧ ∃ s b, m p.email s b = true) := by
  unfold step_preference
  split
  · exact Or.inl rfl
  split
  · exact Or.inl rfl
  split
  · exact Or.inl rfl
  split
  · exact Or.inl rfl
  split
  · next h => exact Or.inr ⟨rfl, _, _, h⟩
  · exact Or.inl rfl

theorem evaluate_singleton_some (m : Mailer) (now : ℚ) (kpi_id : String) (v : ℚ)
    (dr name : String) (p p' : NotificationPreference) (r : NotificationHistoryRecord)
    (out : PreferenceOutcome) (st : EngineState)
    (hst : st.preferences = [p]) (hk : p.kpi_id = kpi_id)
    (hstep : step_preference m now kpi_id v dr name p = (p', some r, out)) :
    evaluate_and_notify m now true kpi_id (.finite v) dr (some name) st =
      .ok ({ st with
              preferences := [p'],
              history := st.history ++ [{ r with id := st.next_history_id }],
              next_history_id := st.next_history_id + 1 },
           [out]) := by
  simp [evaluate_and_notify, hst, process_preferences, hk, hstep]

theorem evaluate_singleton_none (m : Mailer) (now : ℚ) (kpi_id : String) (v : ℚ)
    (dr name : String) (p p' : NotificationPreference)
    (out : PreferenceOutcome) (st : EngineState)
    (hst : st.preferences = [p]) (hk : p.kpi_id = kpi_id)
    (hstep : step_preference m now kpi_id v dr name p = (p', none, out)) :
    evaluate_and_notify m now true kpi_id (.finite v) dr (some name) st =
      .ok ({ st with
              preferences := [p'],
              history := st.history,
              next_history_id := st.next_history_id },
           [out]) := by
  simp [evaluate_and_notify, hst, process_preferences, hk, hstep]

theorem evaluate_singleton_other_kpi (m : Mailer) (now : ℚ) (kpi_id : String) (v : ℚ)
    (dr name : String) (p : NotificationPreference) (st : EngineState)
    (hst : st.preferences = [p]) (hk : p.kpi_id ≠ kpi_id) :
    evaluate_and_notify m now true kpi_id (.finite v) dr (some name) st =
      .ok ({ st with
              preferences := [p],
              history := st.history,
              next_history_id := st.next_history_id },
           []) := by
  simp [evaluate_and_notify, hst, process_preferences, hk]

theorem process_preferences_frame (m : Mailer) (now : ℚ) (kpi_id : String) (v : ℚ)
    (dr name : String) (ps : List NotificationPreference) :
    ∀ n : Nat,
      List.Forall₂
        (fun p q => q = p ∨ (q = { p with last_notified := some now }
                             ∧ ∃ s b, m p.email s b = true))
        ps (process_preferences m now kpi_id v dr name ps n).1 := by
  induction ps with
  | nil => intro n; exact List.Forall₂.nil
  | cons p ps ih =>
    intro n
    simp only [process_preferences]
    by_cases hk : p.kpi_id = kpi_id
    · rw [if_pos hk]
      have hfst := step_preference_fst_cases m now kpi_id v dr name p
      rcases hstep : step_preference m now kpi_id v dr name p with ⟨p', r?, out⟩
      rw [hstep] at hfst
      cases r? with
      | some r => exact List.Forall₂.cons hfst (ih (n + 1))
      | none => exact List.Forall₂.cons hfst (ih n)
    · rw [if_neg hk]
      exact List.Forall₂.cons (Or.inl rfl) (ih n)

/-- Claim C4: a preference with `enabled = false` is never evaluated:
regardless of the KPI value, the threshold operator and the cooldown state,
the per-preference step dispatches nothing, and an `evaluate_and_notify` call
over a store holding that preference appends no history record and leaves the
preference unchanged. -/
theorem claim_C4_disabled_preference_inert (m : Mailer) (now : ℚ) (kpi_id : String)
    (v : ℚ) (dr name : String) (p : NotificationPreference) (st : EngineState)
    (hd : p.enabled = false) (hst : st.preferences = [p]) :
    step_preference m now kpi_id v dr name p = (p, none, ⟨p.id, false, "disabled"⟩)
    ∧ ∀ st' outs,
        evaluate_and_notify m now true kpi_id (.finite v) dr (some name) st = .ok (st', outs) →
        st'.history = st.history ∧ st'.preferences = st.preferences := by
  have hstep := step_preference_disabled m now kpi_id v dr name p hd
  refine ⟨hstep, ?_⟩
  intro st' outs h
  by_cases hk : p.kpi_id = kpi_id
  · rw [evaluate_singleton_none m now kpi_id v dr name p p _ st hst hk hstep] at h
    injection h with h'
    injection h' with ha hb
    subst ha
    exact ⟨rfl, by rw [hst]⟩
  · rw [evaluate_singleton_other_kpi m now kpi_id v dr name p st hst hk] at h
    injection h with h'
    injection h' with ha hb
    subst ha
    exact ⟨rfl, by rw [hst]⟩

/-- Witness for C4 at the spec's test input: disabled preference with
`less_than 20` and update value 5 — no dispatch, no history record. -/
theorem claim_C4_disabled_preference_inert_witness :
    step_preference sample_mailer_ok 25 "poverty_rate" 5 "January 2024" "Poverty Rate"
        sample_pref_disabled
      = (sample_pref_disabled, none, ⟨sample_pref_disabled.id, false, "disabled"⟩)
    ∧ ∀ st' outs,
        evaluate_and_notify sample_mailer_ok 25 true "poverty_rate" (.finite 5) "January 2024"
            (some "Poverty Rate") sample_st_disabled = .ok (st', outs) →
        st'.history = sample_st_disabled.history
        ∧ st'.preferences = sample_st_disabled.preferences :=
  claim_C4_disabled_preference_inert sample_mailer_ok 25 "poverty_rate" 5 "January 2024"
    "Poverty Rate" sample_pref_disabled sample_st_disabled rfl rfl

/-- Claim C5: call-level atomicity — a non-finite value (NaN or either
infinity) makes `evaluate_and_notify` fail with `InvalidValue` whatever the
store's availability, and a PreferenceStore read failure makes it fail with
`StoreUnavailable`; an error result carries no state, so the PreferenceStore,
the history log and the KpiStore are exactly as before the call. -/
theorem claim_C5_call_level_errors (m : Mailer) (now : ℚ) (kpi_id dr : String)
    (name? : Option String) (st : EngineState) :
    (∀ so : Bool, evaluate_and_notify m now so kpi_id .nan dr name? st = .error .InvalidValue)
    ∧ (∀ so : Bool, evaluate_and_notify m now so kpi_id .pos_inf dr name? st = .error .InvalidValue)
    ∧ (∀ so : Bool, evaluate_and_notify m now so kpi_id .neg_inf dr name? st = .error .InvalidValue)
    ∧ (∀ v : ℚ, evaluate_and_notify m now false kpi_id (.finite v) dr name? st
        = .error .StoreUnavailable) :=
  ⟨fun _ => rfl, fun _ => rfl, fun _ => rfl, fun _ => rfl⟩

/-- Claim C6: the `date_range` filter — a preference whose `date_range` is
non-empty is skipped whenever it differs character-for-character from the
update's `date_range`, even when the threshold predicate holds; a preference
with an empty `date_range` is never blocked by the filter and, when the
predicate holds, the cooldown is clear and the Mailer accepts, it is
dispatched. -/
theorem claim_C6_date_range_filter (m : Mailer) (now : ℚ) (kpi_id : String) (v : ℚ)
    (dr name : String) (p : NotificationPreference) (hen : p.enabled = true) :
    (p.date_range ≠ "" → p.date_range ≠ dr →
      step_preference m now kpi_id v dr name p = (p, none, ⟨p.id, false, "date mismatch"⟩))
    ∧ (p.date_range = "" →
        date_range_blocks p dr = false
        ∧ (compare v p.threshold_operator p.threshold_value = true →
           in_cooldown now p = false →
           m p.email (mail_subject name)
               (mail_body v p.threshold_value p.threshold_operator dr) = true →
           step_preference m now kpi_id v dr name p =
             ({ p with last_notified := some now },
              some ⟨0, kpi_id, name, v, p.threshold_value, p.threshold_operator,
                    p.email, now, true⟩,
              ⟨p.id, true, "dispatched"⟩))) := by
  constructor
  · intro h1 h2
    exact step_preference_date_mismatch m now kpi_id v dr name p hen
      (by simp [date_range_blocks, h1, h2])
  · intro h0
    have hb : date_range_blocks p dr = false := by simp [date_range_blocks, h0]
    exact ⟨hb, fun hc hcd hm => step_preference_dispatch m now kpi_id v dr name p hen hb hc hcd hm⟩

/-- Witness for C6 at a concrete preference (empty `date_range`, `less_than 15`)
and the update period "February 2024". -/
theorem claim_C6_date_range_filter_witness :
    (sample_pref.date_range ≠ "" → sample_pref.date_range ≠ "February 2024" →
      step_preference sample_mailer_ok 25 "poverty_rate" 14 "February 2024" "Poverty Rate"
          sample_pref
        = (sample_pref, none, ⟨sample_pref.id, false, "date mismatch"⟩))
    ∧ (sample_pref.date_range = "" →
        date_range_blocks sample_pref "February 2024" = false
        ∧ (compare 14 sample_pref.threshold_operator sample_pref.threshold_value = true →
           in_cooldown 25 sample_pref = false →
           sample_mailer_ok sample_pref.email (mail_subject "Poverty Rate")
               (mail_body 14 sample_pref.threshold_value sample_pref.threshold_operator
                 "February 2024") = true →
           step_preference sample_mailer_ok 25 "poverty_rate" 14 "February 2024" "Poverty Rate"
               sample_pref =
             ({ sample_pref with last_notified := some 25 },
              some ⟨0, "poverty_rate", "Poverty Rate", 14, sample_pref.threshold_value,
                    sample_pref.threshold_operator, sample_pref.email, 25, true⟩,
              ⟨sample_pref.id, true, "dispatched"⟩))) :=
  claim_C6_date_range_filter sample_mailer_ok 25 "poverty_rate" 14 "February 2024"
    "Poverty Rate" sample_pref rfl

/-- Claim C1: at most one notification per cooldown period.  For a qualifying
preference (enabled, date filter clear, predicate true, Mailer accepting):
if `last_notified` is set and `now - last_notified < cooldown_hours` the step
skips; once `cooldown_hours ≤ now - last_notified` it dispatches; and two
qualifying `evaluate_and_notify` calls inside one cooldown window append
exactly one history record — the first call appends it, the second appends
nothing. -/
theorem claim_C1_cooldown_window (m : Mailer) (now₁ now₂ : ℚ) (kpi_id : String)
    (v : ℚ) (dr name : String) (p : NotificationPreference) (st : EngineState)
    (hen : p.enabled = true) (hb : date_range_blocks p dr = false)
    (hc : compare v p.threshold_operator p.threshold_value = true)
    (hm : m p.email (mail_subject name)
            (mail_body v p.threshold_value p.threshold_operator dr) = true)
    (hst : st.preferences = [p]) (hk : p.kpi_id = kpi_id) :
    (∀ ln, p.last_notified = some ln → now₁ - ln < (p.cooldown_hours : ℚ) →
      step_preference m now₁ kpi_id v dr name p = (p, none, ⟨p.id, false, "cooldown"⟩))
    ∧ (∀ ln, p.last_notified = some ln → (p.cooldown_hours : ℚ) ≤ now₁ - ln →
      step_preference m now₁ kpi_id v dr name p =
        ({ p with last_notified := some now₁ },
         some ⟨0, kpi_id, name, v, p.threshold_value, p.threshold_operator, p.email, now₁, true⟩,
         ⟨p.id, true, "dispatched"⟩))
    ∧ (in_cooldown now₁ p = false → now₂ - now₁ < (p.cooldown_hours : ℚ) →
      ∃ st₁ outs₁ st₂ outs₂,
        evaluate_and_notify m now₁ true kpi_id (.finite v) dr (some name) st = .ok (st₁, outs₁)
        ∧ st₁.history = st.history ++
            [⟨st.next_history_id, kpi_id, name, v, p.threshold_value, p.threshold_operator,
              p.email, now₁, true⟩]
        ∧ evaluate_and_notify m now₂ true kpi_id (.finite v) dr (some name) st₁ = .ok (st₂, outs₂)
        ∧ st₂.history = st₁.history) := by
  refine ⟨?_, ?_, ?_⟩
  · intro ln hln h
    exact step_preference_cooldown m now₁ kpi_id v dr name p hen hb hc
      (by simp [in_cooldown, hln, h])
  · intro ln hln h
    exact step_preference_dispatch m now₁ kpi_id v dr name p hen hb hc
      (by simp [in_cooldown, hln]; exact h) hm
  · intro hcool₁ h12
    have hstep₁ := step_preference_dispatch m now₁ kpi_id v dr name p hen hb hc hcool₁ hm
    have heval₁ := evaluate_singleton_some m now₁ kpi_id v dr name p
      { p with last_notified := some now₁ }
      ⟨0, kpi_id, name, v, p.threshold_value, p.threshold_operator, p.email, now₁, true⟩
      ⟨p.id, true, "dispatched"⟩ st hst hk hstep₁
    have hen' : ({ p with last_notified := some now₁ } : NotificationPreference).enabled = true := hen
    have hb' : date_range_blocks { p with last_notified := some now₁ } dr = false := hb
    have hc' : compare v ({ p with last_notified := some now₁ } : NotificationPreference).threshold_operator
        ({ p with last_notified := some now₁ } : NotificationPreference).threshold_value = true := hc
    have hcd₂ : in_cooldown now₂ { p with last_notified := some now₁ } = true := by
      simp only [in_cooldown]
      exact decide_eq_true h12
    have hstep₂ := step_preference_cooldown m now₂ kpi_id v dr name
      { p with last_notified := some now₁ } hen' hb' hc' hcd₂
    have heval₂ := evaluate_singleton_none m now₂ kpi_id v dr name
      { p with last_notified := some now₁ } { p with last_notified := some now₁ }
      ⟨({ p with last_notified := some now₁ } : NotificationPreference).id, false, "cooldown"⟩
      { st with
          preferences := [{ p with last_notified := some now₁ }],
          history := st.history ++
            [⟨st.next_history_id, kpi_id, name, v, p.threshold_value, p.threshold_operator,
              p.email, now₁, true⟩],
          next_history_id := st.next_history_id + 1 }
      rfl hk hstep₂
    exact ⟨_, _, _, _, heval₁, rfl, heval₂, rfl⟩

/-- Witness for C1: preference `less_than 15` with `cooldown_hours = 24` and
`last_notified = 0`, evaluated at hours 25 and 26 with value 14 — the first
call dispatches, the second is inside the cooldown window. -/
theorem claim_C1_cooldown_window_witness :
    (∀ ln, sample_pref_notified.last_notified = some ln →
      (25 : ℚ) - ln < (sample_pref_notified.cooldown_hours : ℚ) →
      step_preference sample_mailer_ok 25 "poverty_rate" 14 "January 2024" "Poverty Rate"
          sample_pref_notified
        = (sample_pref_notified, none, ⟨sample_pref_notified.id, false, "cooldown"⟩))
    ∧ (∀ ln, sample_pref_notified.last_notified = some ln →
      (sample_pref_notified.cooldown_hours : ℚ) ≤ (25 : ℚ) - ln →
      step_preference sample_mailer_ok 25 "poverty_rate" 14 "January 2024" "Poverty Rate"
          sample_pref_notified =
        ({ sample_pref_notified with last_notified := some 25 },
         some ⟨0, "poverty_rate", "Poverty Rate", 14, sample_pref_notified.threshold_value,
               sample_pref_notified.threshold_operator, sample_pref_notified.email, 25, true⟩,
         ⟨sample_pref_notified.id, true, "dispatched"⟩))
    ∧ (in_cooldown 25 sample_pref_notified = false →
      (26 : ℚ) - 25 < (sample_pref_notified.cooldown_hours : ℚ) →
      ∃ st₁ outs₁ st₂ outs₂,
        evaluate_and_notify sample_mailer_ok 25 true "poverty_rate" (.finite 14) "January 2024"
            (some "Poverty Rate") sample_st_notified = .ok (st₁, outs₁)
        ∧ st₁.history = sample_st_notified.history ++
            [⟨sample_st_notified.next_history_id, "poverty_rate", "Poverty Rate", 14,
              sample_pref_notified.threshold_value, sample_pref_notified.threshold_operator,
              sample_pref_notified.email, 25, true⟩]
        ∧ evaluate_and_notify sample_mailer_ok 26 true "poverty_rate" (.finite 14) "January 2024"
            (some "Poverty Rate") st₁ = .ok (st₂, outs₂)
        ∧ st₂.history = st₁.history) :=
  claim_C1_cooldown_window sample_mailer_ok 25 26 "poverty_rate" 14 "January 2024"
    "Poverty Rate" sample_pref_notified sample_st_notified rfl (by decide) (by decide)
    rfl rfl rfl

/-- Claim C3: partial failure isolation.  With two qualifying preferences on
the same KPI where the Mailer rejects the first and accepts the second,
`evaluate_and_notify` still returns an overall success: the failing
preference keeps its `last_notified` and gets a `success = false` history
record, the succeeding one gets `last_notified = now` and a `success = true`
record, and the outcome list reports both. -/
theorem claim_C3_partial_failure_isolated (m : Mailer) (now : ℚ) (kpi_id : String)
    (v : ℚ) (dr name : String) (p₁ p₂ : NotificationPreference) (st : EngineState)
    (hst : st.preferences = [p₁, p₂])
    (hk₁ : p₁.kpi_id = kpi_id) (hk₂ : p₂.kpi_id = kpi_id)
    (hen₁ : p₁.enabled = true) (hen₂ : p₂.enabled = true)
    (hb₁ : date_range_blocks p₁ dr = false) (hb₂ : date_range_blocks p₂ dr = false)
    (hc₁ : compare v p₁.threshold_operator p₁.threshold_value = true)
    (hc₂ : compare v p₂.threshold_operator p₂.threshold_value = true)
    (hcool₁ : in_cooldown now p₁ = false) (hcool₂ : in_cooldown now p₂ = false)
    (hm₁ : m p₁.email (mail_subject name)
             (mail_body v p₁.threshold_value p₁.threshold_operator dr) = false)
    (hm₂ : m p₂.email (mail_subject name)
             (mail_body v p₂.threshold_value p₂.threshold_operator dr) = true) :
    evaluate_and_notify m now true kpi_id (.finite v) dr (some name) st =
      .ok ({ st with
              preferences := [p₁, { p₂ with last_notified := some now }],
              history := st.history ++
                [⟨st.next_history_id, kpi_id, name, v, p₁.threshold_value,
                  p₁.threshold_operator, p₁.email, now, false⟩,
                 ⟨st.next_history_id + 1, kpi_id, name, v, p₂.threshold_value,
                  p₂.threshold_operator, p₂.email, now, true⟩],
              next_history_id := st.next_history_id + 2 },
           [⟨p₁.id, false, "delivery failed"⟩, ⟨p₂.id, true, "dispatched"⟩]) := by
  have hstep₁ := step_preference_delivery_failed m now kpi_id v dr name p₁ hen₁ hb₁ hc₁ hcool₁ hm₁
  have hstep₂ := step_preference_dispatch m now kpi_id v dr name p₂ hen₂ hb₂ hc₂ hcool₂ hm₂
  simp [evaluate_and_notify, hst, process_preferences, hk₁, hk₂, hstep₁, hstep₂]

/-- Witness for C3: `sample_pref` (recipient rejected by `sample_mailer_pick`)
and `sample_pref2` (recipient accepted) on the same KPI update. -/
theorem claim_C3_partial_failure_isolated_witness :
    evaluate_and_notify sample_mailer_pick 25 true "poverty_rate" (.finite 14) "January 2024"
        (some "Poverty Rate") sample_st_two =
      .ok ({ sample_st_two with
              preferences := [sample_pref, { sample_pref2 with last_notified := some 25 }],
              history := sample_st_two.history ++
                [⟨sample_st_two.next_history_id, "poverty_rate", "Poverty Rate", 14,
                  sample_pref.threshold_value, sample_pref.threshold_operator,
                  sample_pref.email, 25, false⟩,
                 ⟨sample_st_two.next_history_id + 1, "poverty_rate", "Poverty Rate", 14,
                  sample_pref2.threshold_value, sample_pref2.threshold_operator,
                  sample_pref2.email, 25, true⟩],
              next_history_id := sample_st_two.next_history_id + 2 },
           [⟨sample_pref.id, false, "delivery failed"⟩, ⟨sample_pref2.id, true, "dispatched"⟩]) :=
  claim_C3_partial_failure_isolated sample_mailer_pick 25 "poverty_rate" 14 "January 2024"
    "Poverty Rate" sample_pref sample_pref2 sample_st_two rfl rfl rfl rfl rfl
    (by decide) (by decide) (by decide) (by decide) rfl rfl (by decide) (by decide)

/-- Claim C7: frame conditions of `evaluate_and_notify` — the KpiStore is
never mutated, the history log only grows at the end (no existing record is
mutated or deleted), and every stored preference is either returned unchanged
or changed only in its `last_notified` field, the latter only when the Mailer
accepted a message to that preference's address. -/
theorem claim_C7_frame_conditions (m : Mailer) (now : ℚ) (store_ok : Bool)
    (kpi_id : String) (value : FloatValue) (dr : String) (name? : Option String)
    (st st' : EngineState) (outs : List PreferenceOutcome)
    (h : evaluate_and_notify m now store_ok kpi_id value dr name? st = .ok (st', outs)) :
    st'.kpis = st.kpis
    ∧ (∃ new, st'.history = st.history ++ new)
    ∧ List.Forall₂
        (fun p q => q = p ∨ (q = { p with last_notified := some now }
                             ∧ ∃ s b, m p.email s b = true))
        st.preferences st'.preferences := by
  cases value with
  | nan => exact absurd h (by simp [evaluate_and_notify])
  | pos_inf => exact absurd h (by simp [evaluate_and_notify])
  | neg_inf => exact absurd h (by simp [evaluate_and_notify])
  | finite v =>
    cases store_ok with
    | false => exact absurd h (by simp [evaluate_and_notify])
    | true =>
      simp only [evaluate_and_notify, if_true] at h
      injection h with h'
      injection h' with ha hb
      subst ha
      exact ⟨rfl, ⟨_, rfl⟩,
        process_preferences_frame m now kpi_id v dr (name?.getD kpi_id)
          st.preferences st.next_history_id⟩

/-- Witness for C7: a dispatching call on the one-preference state
`sample_st` at hour 25. -/
theorem claim_C7_frame_conditions_witness :
    (⟨[{ sample_pref with last_notified := some 25 }],
      [⟨0, "poverty_rate", "Poverty Rate", 14, 15, .less_than, "a@b.com", 25, true⟩],
      [], 1⟩ : EngineState).kpis = sample_st.kpis
    ∧ (∃ new, (⟨[{ sample_pref with last_notified := some 25 }],
        [⟨0, "poverty_rate", "Poverty Rate", 14, 15, .less_than, "a@b.com", 25, true⟩],
        [], 1⟩ : EngineState).history = sample_st.history ++ new)
    ∧ List.Forall₂
        (fun p q => q = p ∨ (q = { p with last_notified := some (25 : ℚ) }
                             ∧ ∃ s b, sample_mailer_ok p.email s b = true))
        sample_st.preferences
        (⟨[{ sample_pref with last_notified := some 25 }],
          [⟨0, "poverty_rate", "Poverty Rate", 14, 15, .less_than, "a@b.com", 25, true⟩],
          [], 1⟩ : EngineState).preferences :=
  claim_C7_frame_conditions sample_mailer_ok 25 true "poverty_rate" (.finite 14) "January 2024"
    (some "Poverty Rate") sample_st
    ⟨[{ sample_pref with last_notified := some 25 }],
     [⟨0, "poverty_rate", "Poverty Rate", 14, 15, .less_than, "a@b.com", 25, true⟩],
     [], 1⟩
    [⟨sample_pref.id, true, "dispatched"⟩] rfl

/-- Claim C8: `create_preference` rejects with `ValidationError` — before any
persistence, since an error result carries no state — every input whose
operator is not one of the five enumerated names, whose `cooldown_hours` is
below 1, or whose email is missing; an input passing all three checks is
persisted, appended to the PreferenceStore. -/
theorem claim_C8_create_preference_validation (next_id : Nat) (inp : PreferenceInput)
    (st : EngineState) :
    ((parse_operator inp.threshold_operator = none ∨ inp.cooldown_hours < 1 ∨ inp.email = "") →
      create_preference next_id inp st = .error .ValidationError)
    ∧ (∀ op, parse_operator inp.threshold_operator = some op →
        1 ≤ inp.cooldown_hours → inp.email ≠ "" →
        create_preference next_id inp st =
          .ok ({ st with preferences := st.preferences ++
                  [⟨next_id, inp.owner, inp.kpi_id, inp.threshold_value, op, inp.email,
                    inp.enabled, inp.cooldown_hours.toNat, inp.date_range,
                    inp.alert_frequency, none⟩] },
               ⟨next_id, inp.owner, inp.kpi_id, inp.threshold_value, op, inp.email,
                inp.enabled, inp.cooldown_hours.toNat, inp.date_range,
                inp.alert_frequency, none⟩)) := by
  constructor
  · rintro (h | h | h)
    · simp [create_preference, h]
    · cases hop : parse_operator inp.threshold_operator with
      | none => simp [create_preference, hop]
      | some op => simp [create_preference, hop, h]
    · cases hop : parse_operator inp.threshold_operator with
      | none => simp [create_preference, hop]
      | some op =>
        by_cases hcd : inp.cooldown_hours < 1
        · simp [create_preference, hop, hcd]
        · simp [create_preference, hop, hcd, h]
  · intro op hop h1 he
    simp [create_preference, hop, not_lt.mpr h1, he]

/-- Witness for C8: the operator name "between" is rejected; the spec's
end-to-end input (`less_than`, cooldown 24, email present) is persisted. -/
theorem claim_C8_create_preference_validation_witness :
    create_preference 3 sample_input_bad sample_st = .error .ValidationError
    ∧ create_preference 3 sample_input_good sample_st =
        .ok ({ sample_st with preferences := sample_st.preferences ++
                [⟨3, sample_input_good.owner, sample_input_good.kpi_id,
                  sample_input_good.threshold_value, .less_than, sample_input_good.email,
                  sample_input_good.enabled, sample_input_good.cooldown_hours.toNat,
                  sample_input_good.date_range, sample_input_good.alert_frequency, none⟩] },
             ⟨3, sample_input_good.owner, sample_input_good.kpi_id,
              sample_input_good.threshold_value, .less_than, sample_input_good.email,
              sample_input_good.enabled, sample_input_good.cooldown_hours.toNat,
              sample_input_good.date_range, sample_input_good.alert_frequency, none⟩) :=
  ⟨(claim_C8_create_preference_validation 3 sample_input_bad sample_st).1 (Or.inl rfl),
   (claim_C8_create_preference_validation 3 sample_input_good sample_st).2 .less_than rfl
     (by decide) (by decide)⟩

/-- Claim C9: `get_history(limit)` returns at most `limit` records and, over
the chronologically appended history log, most-recent-first (descending
`sent_at`). -/
theorem claim_C9_get_history_bounded_desc (st : EngineState) (limit : Nat)
    (hchrono : st.history.Pairwise (fun a b => a.sent_at ≤ b.sent_at)) :
    (get_history limit st).length ≤ limit
    ∧ (get_history limit st).Pairwise (fun a b => b.sent_at ≤ a.sent_at) := by
  constructor
  · simp [get_history, List.length_take]
  · have hrev : st.history.reverse.Pairwise (fun a b => b.sent_at ≤ a.sent_at) :=
      List.pairwise_reverse.mpr hchrono
    exact hrev.sublist (List.take_sublist limit st.history.reverse)

/-- Witness for C9 on a two-record history with limit 1. -/
theorem claim_C9_get_history_bounded_desc_witness :
    (get_history 1 sample_st_history).length ≤ 1
    ∧ (get_history 1 sample_st_history).Pairwise (fun a b => b.sent_at ≤ a.sent_at) :=
  claim_C9_get_history_bounded_desc sample_st_history 1 (by decide)

/-- Claim C10: round-trip of the saved-graph storage.  Saving produces a graph
`g` whose id the save call generated; provided that id is fresh (the source's
`generateId` produces unique ids), `getGraphById g.id` finds exactly `g`, the
store becomes the old list with `g` appended (every previously saved graph
unchanged), and after `deleteGraph g.id` the id resolves to `null` and exactly
the graphs with a different id — here, all previously stored ones — are
retained. -/
theorem claim_C10_graph_storage_roundtrip (store : List SavedGraph)
    (newId ts ca prompt vlSpec dataset : String) (g : SavedGraph) (store' : List SavedGraph)
    (hsave : saveGraph newId ts ca prompt vlSpec dataset store = (g, store'))
    (hfresh : ∀ x ∈ getSavedGraphs store, x.id ≠ newId) :
    getGraphById g.id store' = some g
    ∧ store' = getSavedGraphs store ++ [g]
    ∧ getGraphById g.id (deleteGraph g.id store') = none
    ∧ deleteGraph g.id store' = getSavedGraphs store := by
  injection hsave with hg hstore
  subst hg
  subst hstore
  have hid : (⟨newId, prompt, vlSpec, dataset, ts, ca⟩ : SavedGraph).id = newId := rfl
  have hnone : store.find? (fun x => decide (x.id = newId)) = none :=
    List.find?_eq_none.mpr (fun x hx => by simp [hfresh x hx])
  have hkeep : store.filter (fun x => decide (x.id ≠ newId)) = store :=
    List.filter_eq_self.mpr (fun x hx => by simp [hfresh x hx])
  refine ⟨?_, rfl, ?_, ?_⟩
  · simp [getGraphById, getSavedGraphs, saveGraph, List.find?_append, hnone]
  · simp [getGraphById, deleteGraph, getSavedGraphs, List.filter_append, hkeep,
      List.find?_eq_none]
  · simp [deleteGraph, getSavedGraphs, List.filter_append, hkeep]
    exact fun a ha => hfresh a ha

/-- Witness for C10: saving a fresh graph over a one-element store. -/
theorem claim_C10_graph_storage_roundtrip_witness :
    getGraphById "graph_2" (sample_graph_store ++
        [⟨"graph_2", "new prompt", "new spec", "median_income.csv", "t1", "c1"⟩])
      = some ⟨"graph_2", "new prompt", "new spec", "median_income.csv", "t1", "c1"⟩
    ∧ sample_graph_store ++
        [⟨"graph_2", "new prompt", "new spec", "median_income.csv", "t1", "c1"⟩]
      = getSavedGraphs sample_graph_store ++
        [⟨"graph_2", "new prompt", "new spec", "median_income.csv", "t1", "c1"⟩]
    ∧ getGraphById "graph_2" (deleteGraph "graph_2" (sample_graph_store ++
        [⟨"graph_2", "new prompt", "new spec", "median_income.csv", "t1", "c1"⟩])) = none
    ∧ deleteGraph "graph_2" (sample_graph_store ++
        [⟨"graph_2", "new prompt", "new spec", "median_income.csv", "t1", "c1"⟩])
      = getSavedGraphs sample_graph_store :=
  claim_C10_graph_storage_roundtrip sample_graph_store "graph_2" "t1" "c1" "new prompt"
    "new spec" "median_income.csv"
    ⟨"graph_2", "new prompt", "new spec", "median_income.csv", "t1", "c1"⟩
    (sample_graph_store ++
      [(⟨"graph_2", "new prompt", "new spec", "median_income.csv", "t1", "c1"⟩ : SavedGraph)])
    rfl (by decide)

end MobilityHub

/-- Claim C2: for every pair of finite values, `compare` realises the five
standard comparison semantics — strict and non-strict inequalities and exact
equality with no epsilon — and at the boundary `compare 15 less_than_or_equal
15 = true` while `compare 15 less_than 15 = false`. -/
theorem MobilityHub.compare_standard_semantics :
    (∀ v t : ℚ,
      MobilityHub.compare v .less_than t = decide (v < t)
      ∧ MobilityHub.compare v .less_than_or_equal t = decide (v ≤ t)
      ∧ MobilityHub.compare v .greater_than t = decide (v > t)
      ∧ MobilityHub.compare v .greater_than_or_equal t = decide (v ≥ t)
      ∧ MobilityHub.compare v .equal t = decide (v = t))
    ∧ MobilityHub.compare 15 .less_than_or_equal 15 = true
    ∧ MobilityHub.compare 15 .less_than 15 = false := by
  refine ⟨fun v t => ⟨rfl, rfl, rfl, rfl, rfl⟩, by decide, by decide⟩
